import Mathlib

/-!
Verification of the overlord process supervisor (src/lib.rs, src/process.rs).

The supervisor code is a thread running an outer loop of
spawn -> poll ... poll -> decision (restart or fail).  We embed it as a
functional transition system: a configuration pairs the shared record
(struct underscore-Process in process.rs) with a control-flow phase of the
supervisor thread, and one step consumes one OS event (the result of
cmd.spawn, or one iteration of the inner polling loop with the available
stdio lines and the try_wait result).  Timing (the 10 ms poll sleep and
the restart delay sleep) has no observable effect on the fields and is
not modelled.  Channels are modelled as queues: stdin_queue holds the
strings sent on the stdin channel and not yet consumed by try_recv,
stdout_queue and stderr_queue accumulate the lines relayed outward, and
child_input accumulates the strings written with write_all to the child
input stream (write_all writes the exact bytes of the string, so we
append the string itself).  The thread handle and channel endpoint
fields of the Rust struct carry no lifecycle information and are elided;
the Option-ness of the three buffered stdio handles is kept as Bools.
-/

/-- State enum from process.rs lines 7-14. -/
inductive State where
  | Stopped
  | Starting
  | Running
  | Restarting
  | Failed
deriving DecidableEq

/-- The record struct from process.rs lines 16-44 (fields named as in the
source; channels as queues, buffered stdio handle presence as Bool). -/
structure _Process where
  name : String
  path : String
  args : List String
  restart_delay : Nat
  cwd : Option String
  state : State
  exit_status : Option Int
  restart_count : Nat
  max_restart_count : Nat
  pid : Option Nat
  stdin_queue : List String
  stdout_queue : List String
  stderr_queue : List String
  child_input : List String
  stdin_writer : Bool
  stdout_reader : Bool
  stderr_reader : Bool
deriving DecidableEq

/-- Control-flow position of the supervisor thread inside launch:
spawning is the top of the outer loop (about to run cmd.spawn), polling is
the inner liveness loop, done means the outer loop was left by break, and
panicked means the thread died by a Rust panic (slice out of bounds or
expect). -/
inductive Phase where
  | spawning
  | polling
  | done
  | panicked
deriving DecidableEq

/-- A configuration of one supervisor: thread phase plus the record. -/
structure Config where
  phase : Phase
  proc : _Process
deriving DecidableEq

/-- Result of child.try_wait() in one polling iteration
(process.rs line 194): Ok(Some(status)) with status.code() as the
optional code, Err(e), or Ok(None). -/
inductive WaitResult where
  | exited (code : Option Int)
  | err
  | stillRunning
deriving DecidableEq

/-- One OS event consumed by a supervisor step: the outcome of
cmd.spawn() at the top of the outer loop, or one inner-loop iteration
carrying the currently available stdout and stderr lines and the
try_wait result. -/
inductive OsEvent where
  | spawnOk (newPid : Nat)
  | spawnErr
  | poll (outLines errLines : List String) (w : WaitResult)
deriving DecidableEq

/-- define_process (process.rs lines 75-109): pure construction of the
record. -/
def define_process (name path : String) (args : List String)
    (restart_delay : Option Nat) (cwd : Option String) : _Process :=
  { name := name
    path := path
    args := args
    restart_delay := restart_delay.getD 0
    cwd := cwd
    state := State.Stopped
    exit_status := none
    restart_count := 0
    max_restart_count := 5
    pid := none
    stdin_queue := []
    stdout_queue := []
    stderr_queue := []
    child_input := []
    stdin_writer := false
    stdout_reader := false
    stderr_reader := false }

/-- launch (process.rs line 112) starts the supervisor thread at the top
of its outer loop. -/
def launch (p : _Process) : Config :=
  { phase := Phase.spawning, proc := p }

/-- Stdio handling of one inner-loop iteration (process.rs lines
158-181): relay the available stdout and stderr lines to the outbound
channels when the readers are present, and when the writer is present
flush at most one queued stdin message, writing its exact bytes
(write_all on input.as_bytes, no newline added). -/
def relayStdio (p : _Process) (outLines errLines : List String) : _Process :=
  { p with
    stdout_queue :=
      if p.stdout_reader then p.stdout_queue ++ outLines else p.stdout_queue
    stderr_queue :=
      if p.stderr_reader then p.stderr_queue ++ errLines else p.stderr_queue
    stdin_queue :=
      if p.stdin_writer then p.stdin_queue.tail else p.stdin_queue
    child_input :=
      if p.stdin_writer then
        match p.stdin_queue with
        | [] => p.child_input
        | m :: _ => p.child_input ++ [m]
      else p.child_input }

/-- One iteration of the inner supervisor loop followed, when it breaks,
by the exit-status match and the restart-budget check (process.rs lines
149-246).  On Ok(Some(status)) the code records exit_status, breaks, and
then either fails (restart_count at or above max_restart_count, line
234) or increments restart_count, sets Restarting, and loops back to
spawn after the delay.  On Err the code sets Failed and breaks the outer
loop without touching exit_status or restart_count.  An exit code of 0
only changes the log line (lines 216-221), not the path taken. -/
def pollStep (p : _Process) (outLines errLines : List String)
    (w : WaitResult) : Config :=
  let q := relayStdio p outLines errLines
  match w with
  | WaitResult.stillRunning => { phase := Phase.polling, proc := q }
  | WaitResult.err =>
      { phase := Phase.done, proc := { q with state := State.Failed } }
  | WaitResult.exited code =>
      let q := { q with exit_status := code }
      if q.restart_count ≥ q.max_restart_count then
        { phase := Phase.done, proc := { q with state := State.Failed } }
      else
        { phase := Phase.spawning
          proc := { q with
            restart_count := q.restart_count + 1
            state := State.Restarting } }

/-- Top of the outer loop (process.rs lines 119-146).  The Rust
expression referencing args from index 1 on panics when args is empty
(slice start index 1 out of range for length 0), before any field of the
record is written; otherwise the spawned child yields a pid, the stdio
handles are installed, and state and pid are set. -/
def spawnStep (p : _Process) (newPid : Nat) : Config :=
  if p.args.length < 1 then
    { phase := Phase.panicked, proc := p }
  else
    { phase := Phase.polling
      proc := { p with
        state := State.Running
        pid := some newPid
        stdin_writer := true
        stdout_reader := true
        stderr_reader := true } }

/-- One step of the supervisor thread.  A spawn failure panics the
thread through expect (process.rs line 135), again after the slice of
args.  A finished (done) or panicked thread takes no further step, and
an event that does not match the current phase changes nothing. -/
def step : Config → OsEvent → Config
  | { phase := Phase.spawning, proc := p }, OsEvent.spawnOk newPid =>
      spawnStep p newPid
  | { phase := Phase.spawning, proc := p }, OsEvent.spawnErr =>
      { phase := Phase.panicked, proc := p }
  | { phase := Phase.polling, proc := p }, OsEvent.poll outLines errLines w =>
      pollStep p outLines errLines w
  | c, _ => c

/-- Iterated stepping of one supervisor over a list of OS events. -/
def run (c : Config) : List OsEvent → Config
  | [] => c
  | e :: es => run (step c e) es

/-- Command enum from lib.rs lines 17-21. -/
inductive Command where
  | Spawn (p : _Process)
  | Quit

/-- The registry actor loop from lib.rs lines 44-59: receive commands in
FIFO order; on Spawn push the record onto the list and call launch on
it; on Quit break out of the loop.  The result pairs the final list with
whether the loop terminated (an empty remaining queue leaves the actor
blocked in recv, hence false). -/
def actorLoop (plist : List Config) : List Command → List Config × Bool
  | [] => (plist, false)
  | Command.Spawn p :: rest => actorLoop (plist ++ [launch p]) rest
  | Command.Quit :: _ => (plist, true)

/-- Specification-side description of the list the actor builds: the
Spawn payloads submitted before the first Quit, in submission order. -/
def spawnedBeforeQuit : List Command → List _Process
  | [] => []
  | Command.Spawn p :: rest => p :: spawnedBeforeQuit rest
  | Command.Quit :: _ => []

/-- Whether the command sequence contains a Quit, which is exactly when
the actor loop terminates. -/
def hasQuit : List Command → Bool
  | [] => false
  | Command.Spawn _ :: rest => hasQuit rest
  | Command.Quit :: _ => true

/-- Concrete record used by several witnesses, matching the test setup
in process.rs (ls -la with cwd / and a restart delay). -/
def pDef : _Process :=
  define_process "ls" "/bin/ls" ["ls", "-la"] (some 1000) (some "/")

/-- Concrete record in the middle of a run: spawned, with one stdin
message queued by an external sender on the stdin channel. -/
def pCat : _Process :=
  { define_process "cat" "/bin/cat" ["cat"] none none with
    state := State.Running
    pid := some 3
    stdin_queue := ["hi"]
    stdin_writer := true
    stdout_reader := true
    stderr_reader := true }

theorem step_done (p : _Process) (ev : OsEvent) :
    step { phase := Phase.done, proc := p } ev = { phase := Phase.done, proc := p } := by
  cases ev <;> rfl

theorem step_panicked (p : _Process) (ev : OsEvent) :
    step { phase := Phase.panicked, proc := p } ev
      = { phase := Phase.panicked, proc := p } := by
  cases ev <;> rfl

theorem run_done (p : _Process) (es : List OsEvent) :
    run { phase := Phase.done, proc := p } es = { phase := Phase.done, proc := p } := by
  induction es with
  | nil => rfl
  | cons e es ih => simp [run, step_done, ih]

theorem run_of_done (x : Config) (es : List OsEvent) (h : x.phase = Phase.done) :
    run x es = x := by
  obtain ⟨ph, p⟩ := x
  obtain rfl : ph = Phase.done := h
  exact run_done p es

theorem step_budget (c : Config) (ev : OsEvent)
    (h : c.proc.restart_count ≤ c.proc.max_restart_count) :
    (step c ev).proc.restart_count ≤ (step c ev).proc.max_restart_count := by
  obtain ⟨ph, p⟩ := c
  cases ph with
  | spawning =>
      cases ev with
      | spawnOk k =>
          show (spawnStep p k).proc.restart_count ≤ (spawnStep p k).proc.max_restart_count
          unfold spawnStep
          split
          · exact h
          · exact h
      | spawnErr => exact h
      | poll o e w => exact h
  | polling =>
      cases ev with
      | spawnOk k => exact h
      | spawnErr => exact h
      | poll o e w =>
          show (pollStep p o e w).proc.restart_count ≤ (pollStep p o e w).proc.max_restart_count
          cases w with
          | exited code =>
              unfold pollStep
              dsimp only
              split
              · exact h
              · rename_i hlt
                exact Nat.succ_le_of_lt (lt_of_not_ge hlt)
          | err => exact h
          | stillRunning => exact h
  | done =>
      cases ev <;> exact h
  | panicked =>
      cases ev <;> exact h

theorem step_poll_child_input (p : _Process) (o e : List String) (w : WaitResult) :
    (step { phase := Phase.polling, proc := p } (OsEvent.poll o e w)).proc.child_input
      = (relayStdio p o e).child_input := by
  show (pollStep p o e w).proc.child_input = (relayStdio p o e).child_input
  cases w with
  | exited code =>
      unfold pollStep
      dsimp only
      split
      · rfl
      · rfl
  | err => rfl
  | stillRunning => rfl

theorem step_poll_stdin_queue (p : _Process) (o e : List String) (w : WaitResult) :
    (step { phase := Phase.polling, proc := p } (OsEvent.poll o e w)).proc.stdin_queue
      = (relayStdio p o e).stdin_queue := by
  show (pollStep p o e w).proc.stdin_queue = (relayStdio p o e).stdin_queue
  cases w with
  | exited code =>
      unfold pollStep
      dsimp only
      split
      · rfl
      · rfl
  | err => rfl
  | stillRunning => rfl

/-- C1: for every record whose restart count is within its budget, at
every point during supervision (after any sequence of OS events
following launch) the invariant restart_count less or equal
max_restart_count still holds: the loop increments restart_count only
after checking restart_count is strictly below max_restart_count
(process.rs lines 234-240), and no other operation increases it. -/
theorem restart_count_le_max (p : _Process) (es : List OsEvent)
    (h : p.restart_count ≤ p.max_restart_count) :
    (run (launch p) es).proc.restart_count
      ≤ (run (launch p) es).proc.max_restart_count := by
  have main : ∀ (es : List OsEvent) (c : Config),
      c.proc.restart_count ≤ c.proc.max_restart_count →
      (run c es).proc.restart_count ≤ (run c es).proc.max_restart_count := by
    intro es
    induction es with
    | nil => intro c hc; exact hc
    | cons e es ih => intro c hc; exact ih (step c e) (step_budget c e hc)
  exact main es (launch p) h

/-- Witness for C1 at a concrete record and event list. -/
theorem restart_count_le_max_w :
    (run (launch pDef)
        [OsEvent.spawnOk 42, OsEvent.poll [] [] (WaitResult.exited (some 0))]).proc.restart_count
      ≤ (run (launch pDef)
        [OsEvent.spawnOk 42, OsEvent.poll [] [] (WaitResult.exited (some 0))]).proc.max_restart_count :=
  restart_count_le_max pDef
    [OsEvent.spawnOk 42, OsEvent.poll [] [] (WaitResult.exited (some 0))]
    (by decide)

/-- C2: when the liveness check reports an exit with any status (some
code, zero or not, or none for a signal) while restart_count is below
max_restart_count, the supervisor records exit_status, increments
restart_count, sets state Restarting, and goes back to the spawning
phase.  The code is quantified over every optional exit code, so a zero
code takes exactly the same path as any other. -/
theorem exit_within_budget_restarts (p : _Process) (o e : List String)
    (code : Option Int) (hb : p.restart_count < p.max_restart_count) :
    (step { phase := Phase.polling, proc := p }
        (OsEvent.poll o e (WaitResult.exited code))).proc.exit_status = code ∧
    (step { phase := Phase.polling, proc := p }
        (OsEvent.poll o e (WaitResult.exited code))).proc.restart_count
      = p.restart_count + 1 ∧
    (step { phase := Phase.polling, proc := p }
        (OsEvent.poll o e (WaitResult.exited code))).proc.state = State.Restarting ∧
    (step { phase := Phase.polling, proc := p }
        (OsEvent.poll o e (WaitResult.exited code))).phase = Phase.spawning := by
  have hstep : step { phase := Phase.polling, proc := p }
      (OsEvent.poll o e (WaitResult.exited code))
      = { phase := Phase.spawning
          proc := { relayStdio p o e with
            exit_status := code
            restart_count := (relayStdio p o e).restart_count + 1
            state := State.Restarting } } := by
    show pollStep p o e (WaitResult.exited code) = _
    unfold pollStep
    dsimp only
    rw [if_neg (not_le_of_lt
      (show (relayStdio p o e).restart_count < (relayStdio p o e).max_restart_count from hb))]
  rw [hstep]
  exact ⟨rfl, rfl, rfl, rfl⟩

/-- Witness for C2 at a concrete running record with budget left. -/
theorem exit_within_budget_restarts_w :
    (step { phase := Phase.polling, proc := pCat }
        (OsEvent.poll [] [] (WaitResult.exited (some 0)))).proc.exit_status = some 0 ∧
    (step { phase := Phase.polling, proc := pCat }
        (OsEvent.poll [] [] (WaitResult.exited (some 0)))).proc.restart_count
      = pCat.restart_count + 1 ∧
    (step { phase := Phase.polling, proc := pCat }
        (OsEvent.poll [] [] (WaitResult.exited (some 0)))).proc.state = State.Restarting ∧
    (step { phase := Phase.polling, proc := pCat }
        (OsEvent.poll [] [] (WaitResult.exited (some 0)))).phase = Phase.spawning :=
  exit_within_budget_restarts pCat [] [] (some 0) (by decide)

/-- C3: when try_wait returns an OS error the supervisor sets state
Failed and leaves the outer loop at once (phase done), with no restart
attempt regardless of remaining budget, and restart_count and
exit_status are unchanged (process.rs lines 204-206 and 222-227). -/
theorem liveness_err_fatal (p : _Process) (o e : List String) :
    (step { phase := Phase.polling, proc := p }
        (OsEvent.poll o e WaitResult.err)).proc.state = State.Failed ∧
    (step { phase := Phase.polling, proc := p }
        (OsEvent.poll o e WaitResult.err)).phase = Phase.done ∧
    (step { phase := Phase.polling, proc := p }
        (OsEvent.poll o e WaitResult.err)).proc.restart_count = p.restart_count ∧
    (step { phase := Phase.polling, proc := p }
        (OsEvent.poll o e WaitResult.err)).proc.exit_status = p.exit_status :=
  ⟨rfl, rfl, rfl, rfl⟩

/-- C10: an exit reported without a code (terminated by a signal) makes
the supervisor store none into exit_status (process.rs lines 196-201),
whatever value an earlier completed run had left there: the record p is
arbitrary, in particular its exit_status may be some earlier code. -/
theorem signal_exit_sets_none (p : _Process) (o e : List String) :
    (step { phase := Phase.polling, proc := p }
        (OsEvent.poll o e (WaitResult.exited none))).proc.exit_status = none := by
  show (pollStep p o e (WaitResult.exited none)).proc.exit_status = none
  unfold pollStep
  dsimp only
  split
  · rfl
  · rfl

theorem step_to_failed_done (c : Config) (ev : OsEvent)
    (h1 : c.proc.state ≠ State.Failed)
    (h2 : (step c ev).proc.state = State.Failed) :
    (step c ev).phase = Phase.done := by
  obtain ⟨ph, p⟩ := c
  cases ph with
  | spawning =>
      cases ev with
      | spawnOk k =>
          revert h2
          show (spawnStep p k).proc.state = State.Failed → (spawnStep p k).phase = Phase.done
          unfold spawnStep
          split
          · intro h2; exact absurd h2 h1
          · intro h2; exact State.noConfusion h2
      | spawnErr => exact absurd h2 h1
      | poll o e w => exact absurd h2 h1
  | polling =>
      cases ev with
      | spawnOk k => exact absurd h2 h1
      | spawnErr => exact absurd h2 h1
      | poll o e w =>
          cases w with
          | exited code =>
              revert h2
              show (pollStep p o e (WaitResult.exited code)).proc.state = State.Failed →
                (pollStep p o e (WaitResult.exited code)).phase = Phase.done
              unfold pollStep
              dsimp only
              split
              · intro _; rfl
              · intro h2; exact State.noConfusion h2
          | err => rfl
          | stillRunning => exact absurd h2 h1
  | done => exact absurd h2 h1
  | panicked => exact absurd h2 h1

/-- C4: state Failed is terminal.  As soon as a supervisor step sets a
record to Failed, it has broken out of the outer loop (both
Failed-setting sites in process.rs lines 224-226 and 235-237 are
followed by break), and from then on no step changes the configuration:
not the state, and no other field of the record. -/
theorem failed_terminal (c : Config) (ev : OsEvent) (es : List OsEvent)
    (h1 : c.proc.state ≠ State.Failed)
    (h2 : (step c ev).proc.state = State.Failed) :
    run (step c ev) es = step c ev :=
  run_of_done (step c ev) es (step_to_failed_done c ev h1 h2)

/-- Witness for C4: the liveness check errors on a concrete running
record, and events afterward leave the failed configuration unchanged. -/
theorem failed_terminal_w :
    run (step { phase := Phase.polling, proc := pCat } (OsEvent.poll [] [] WaitResult.err))
        [OsEvent.spawnOk 9, OsEvent.poll [] [] (WaitResult.exited (some 0))]
      = step { phase := Phase.polling, proc := pCat } (OsEvent.poll [] [] WaitResult.err) :=
  failed_terminal { phase := Phase.polling, proc := pCat } (OsEvent.poll [] [] WaitResult.err)
    [OsEvent.spawnOk 9, OsEvent.poll [] [] (WaitResult.exited (some 0))]
    (by decide) (by decide)

/-- C5 counterexample: after one spawn and one observed exit the record
is Restarting, yet pid still holds the pid of the exited child (the code
never writes none to pid; process.rs sets it only at line 143), so pid
is not absent once an exit has been observed, contrary to the claim. -/
theorem pid_present_in_restarting_cex :
    (run (launch pDef)
        [OsEvent.spawnOk 42, OsEvent.poll [] [] (WaitResult.exited (some 0))]).proc.state
      = State.Restarting ∧
    (run (launch pDef)
        [OsEvent.spawnOk 42, OsEvent.poll [] [] (WaitResult.exited (some 0))]).proc.pid
      = some 42 := by
  constructor
  · rfl
  · rfl

/-- C5 amended: pid is none at construction and is set at each
successful spawn, but it is never cleared: once pid is some it stays
some through every later step, in particular while the record is
Restarting or Failed. -/
theorem pid_never_cleared (c : Config) (ev : OsEvent)
    (name path : String) (args : List String)
    (rd : Option Nat) (cw : Option String) :
    ((c.proc.pid).isSome = true → ((step c ev).proc.pid).isSome = true) ∧
    (define_process name path args rd cw).pid = none := by
  refine ⟨?_, rfl⟩
  intro h
  obtain ⟨ph, p⟩ := c
  cases ph with
  | spawning =>
      cases ev with
      | spawnOk k =>
          show ((spawnStep p k).proc.pid).isSome = true
          unfold spawnStep
          split
          · exact h
          · rfl
      | spawnErr => exact h
      | poll o e w => exact h
  | polling =>
      cases ev with
      | spawnOk k => exact h
      | spawnErr => exact h
      | poll o e w =>
          cases w with
          | exited code =>
              show ((pollStep p o e (WaitResult.exited code)).proc.pid).isSome = true
              unfold pollStep
              dsimp only
              split
              · exact h
              · exact h
          | err => exact h
          | stillRunning => exact h
  | done => cases ev <;> exact h
  | panicked => cases ev <;> exact h

/-- Witness for C5 amended at a concrete spawned record and step. -/
theorem pid_never_cleared_w :
    (((step { phase := Phase.polling, proc := pCat }
        (OsEvent.poll [] [] WaitResult.stillRunning)).proc.pid).isSome = true) ∧
    (define_process "x" "/bin/x" ["x"] none none).pid = none :=
  ⟨(pid_never_cleared { phase := Phase.polling, proc := pCat }
      (OsEvent.poll [] [] WaitResult.stillRunning) "x" "/bin/x" ["x"] none none).1 (by decide),
   (pid_never_cleared { phase := Phase.polling, proc := pCat }
      (OsEvent.poll [] [] WaitResult.stillRunning) "x" "/bin/x" ["x"] none none).2⟩

/-- C6: define_process is pure construction: for every input it returns
a record with state Stopped, restart_count 0, exit_status none, pid
none, and max_restart_count 5 (process.rs lines 75-109).  The record is
plain data; only step and run derive new configurations from it, so a
record that is never launched keeps these values. -/
theorem define_process_spec (name path : String) (args : List String)
    (rd : Option Nat) (cwd : Option String) :
    (define_process name path args rd cwd).state = State.Stopped ∧
    (define_process name path args rd cwd).restart_count = 0 ∧
    (define_process name path args rd cwd).exit_status = none ∧
    (define_process name path args rd cwd).pid = none ∧
    (define_process name path args rd cwd).max_restart_count = 5 :=
  ⟨rfl, rfl, rfl, rfl, rfl⟩

theorem actorLoop_list (plist : List Config) (cmds : List Command) :
    (actorLoop plist cmds).1 = plist ++ (spawnedBeforeQuit cmds).map launch := by
  induction cmds generalizing plist with
  | nil => simp [actorLoop, spawnedBeforeQuit]
  | cons cmd rest ih =>
      cases cmd with
      | Spawn p => simp [actorLoop, spawnedBeforeQuit, ih]
      | Quit => simp [actorLoop, spawnedBeforeQuit]

theorem actorLoop_term (plist : List Config) (cmds : List Command) :
    (actorLoop plist cmds).2 = hasQuit cmds := by
  induction cmds generalizing plist with
  | nil => rfl
  | cons cmd rest ih =>
      cases cmd with
      | Spawn p => simpa [actorLoop, hasQuit] using ih (plist ++ [launch p])
      | Quit => rfl

/-- C7: the registry actor consumes commands in FIFO submission order;
each Spawn appends the record to the list and triggers launch on it, so
the final list is the initial list followed by the launched Spawn
payloads submitted before the first Quit, in order (nothing is removed
or reordered); Quit only ends the loop, and on a fresh registry with no
prior spawns the loop ends with list length 0 (lib.rs lines 44-59 and
69-72). -/
theorem actor_fifo (plist : List Config) (cmds : List Command) :
    (actorLoop plist cmds).1 = plist ++ (spawnedBeforeQuit cmds).map launch ∧
    (actorLoop plist cmds).2 = hasQuit cmds ∧
    (actorLoop [] [Command.Quit]).1.length = 0 :=
  ⟨actorLoop_list plist cmds, actorLoop_term plist cmds, rfl⟩

/-- C8: in one polling iteration of a running supervisor whose child
stdin writer is installed, at most one queued inbound message is taken
from the stdin channel, and it is written to the child input as the
exact string (no newline appended): with an empty queue the child input
is unchanged, and with queue head m exactly m is appended and the rest
of the queue remains (process.rs lines 175-181). -/
theorem stdin_at_most_one (p : _Process) (o e : List String) (w : WaitResult)
    (hw : p.stdin_writer = true) :
    (p.stdin_queue = [] →
      (step { phase := Phase.polling, proc := p }
          (OsEvent.poll o e w)).proc.child_input = p.child_input) ∧
    (∀ m rest, p.stdin_queue = m :: rest →
      (step { phase := Phase.polling, proc := p }
          (OsEvent.poll o e w)).proc.child_input = p.child_input ++ [m] ∧
      (step { phase := Phase.polling, proc := p }
          (OsEvent.poll o e w)).proc.stdin_queue = rest) := by
  constructor
  · intro hq
    rw [step_poll_child_input]
    simp [relayStdio, hw, hq]
  · intro m rest hq
    rw [step_poll_child_input, step_poll_stdin_queue]
    constructor
    · simp [relayStdio, hw, hq]
    · simp [relayStdio, hw, hq]

/-- Witness for C8 at a concrete running record with one queued stdin
message. -/
theorem stdin_at_most_one_w :
    (step { phase := Phase.polling, proc := pCat }
        (OsEvent.poll [] [] WaitResult.stillRunning)).proc.child_input
      = pCat.child_input ++ ["hi"] ∧
    (step { phase := Phase.polling, proc := pCat }
        (OsEvent.poll [] [] WaitResult.stillRunning)).proc.stdin_queue = [] :=
  (stdin_at_most_one pCat [] [] WaitResult.stillRunning rfl).2 "hi" [] rfl

/-- C9: launching a record whose args vector is empty panics in the
outer loop while building the OS command (the Rust slice of args from
index 1 is out of bounds for length 0, process.rs line 122), before any
lifecycle field is written: the whole configuration is the untouched
record in the panicked phase, so a freshly defined record stays Stopped
with pid none. -/
theorem empty_args_spawn_panics (p : _Process) (k : Nat) (h : p.args = []) :
    step (launch p) (OsEvent.spawnOk k) = { phase := Phase.panicked, proc := p } := by
  show spawnStep p k = _
  unfold spawnStep
  rw [if_pos (show p.args.length < 1 by rw [h]; decide)]

/-- Witness for C9: a freshly defined record with empty args panics at
spawn and keeps state Stopped and pid none. -/
theorem empty_args_spawn_panics_w :
    step (launch (define_process "x" "/bin/x" [] none none)) (OsEvent.spawnOk 0)
      = { phase := Phase.panicked, proc := define_process "x" "/bin/x" [] none none } ∧
    (define_process "x" "/bin/x" [] none none).state = State.Stopped ∧
    (define_process "x" "/bin/x" [] none none).pid = none :=
  ⟨empty_args_spawn_panics (define_process "x" "/bin/x" [] none none) 0 rfl, rfl, rfl⟩
